import Mathlib

/-!
# Verification of the secure-s3-upload Lambda handler

Shallow embedding of `src/lambda/handler.py` (the single source file of the
repository) and proofs of the specification's testable properties.

The handler's effectful collaborators are passed explicitly:
* the current Unix timestamp (`int(time.time())`) as a `Nat`,
* the random identifier (`str(uuid.uuid4())`) as a `String`,
* the storage backend's signing call (`s3_client.generate_presigned_url`)
  as a function `PresignParams → Except PyError String` that either returns
  the signed URL or raises,
* the environment-sourced configuration as a `Config` value.

Python's `json` stdlib module is modelled by `jsonParse` (for `json.loads`)
and `jsonDumps` (for `json.dumps`): executable definitions following the
JSON grammar that CPython's `json` module accepts and emits with default
options (strict strings, `NaN`/`Infinity`/`-Infinity` accepted, number
lexemes kept verbatim, `ensure_ascii` escaping on output).
-/

namespace SecureS3Upload

/-- Python values produced by `json.loads`.  Number literals keep their raw
lexeme: the handler never computes with numbers, it only needs to know that
a number is not a string. -/
inductive Json where
  | null : Json
  | bool : Bool → Json
  | num : String → Json
  | str : String → Json
  | arr : List Json → Json
  | obj : List (String × Json) → Json

/-- `d.get(k, default)` on a Python dict built by `json.loads`: with
duplicate keys the last occurrence wins, hence the search over the reversed
association list. -/
def getField (fields : List (String × Json)) (k : String) : Option Json :=
  (fields.reverse.find? (fun p => p.1 == k)).map (fun p => p.2)

/-- Drop every binding of key `k` (used to say two request bodies agree
outside one field). -/
def removeField (k : String) (fields : List (String × Json)) :
    List (String × Json) :=
  fields.filter (fun p => p.1 != k)

/-! ## A model of `json.loads` -/

/-- JSON whitespace. -/
def isJsonWs (c : Char) : Bool :=
  c = ' ' || c = '\t' || c = '\n' || c = '\r'

/-- Skip leading JSON whitespace. -/
def skipWs : List Char → List Char
  | [] => []
  | c :: cs => if isJsonWs c then skipWs cs else c :: cs

/-- Value of a hexadecimal digit. -/
def hexVal (c : Char) : Option Nat :=
  if '0' ≤ c ∧ c ≤ '9' then some (c.toNat - '0'.toNat)
  else if 'a' ≤ c ∧ c ≤ 'f' then some (c.toNat - 'a'.toNat + 10)
  else if 'A' ≤ c ∧ c ≤ 'F' then some (c.toNat - 'A'.toNat + 10)
  else none

/-- Read exactly four hex digits. -/
def readHex4 : List Char → Option (Nat × List Char)
  | a :: b :: c :: d :: rest => do
    let va ← hexVal a
    let vb ← hexVal b
    let vc ← hexVal c
    let vd ← hexVal d
    pure (((va * 16 + vb) * 16 + vc) * 16 + vd, rest)
  | _ => none

/-- Parse the remainder of a JSON string literal (the opening quote has been
consumed), strict mode: raw control characters are rejected.  A `\u` escape
that opens a surrogate pair is combined with the following `\u` escape; the
model assumes escapes do not denote lone surrogates (CPython would keep a
lone surrogate, which `Char` cannot represent). -/
def parseStringRest (fuel : Nat) (acc : List Char) (cs : List Char) :
    Option (String × List Char) :=
  match fuel with
  | 0 => none
  | fuel + 1 =>
    match cs with
    | [] => none
    | c :: rest =>
      if c = '"' then some (String.mk acc.reverse, rest)
      else if c = '\\' then
        match rest with
        | [] => none
        | e :: rest2 =>
          if e = '"' then parseStringRest fuel ('"' :: acc) rest2
          else if e = '\\' then parseStringRest fuel ('\\' :: acc) rest2
          else if e = '/' then parseStringRest fuel ('/' :: acc) rest2
          else if e = 'b' then parseStringRest fuel ('\x08' :: acc) rest2
          else if e = 'f' then parseStringRest fuel ('\x0c' :: acc) rest2
          else if e = 'n' then parseStringRest fuel ('\n' :: acc) rest2
          else if e = 'r' then parseStringRest fuel ('\r' :: acc) rest2
          else if e = 't' then parseStringRest fuel ('\t' :: acc) rest2
          else if e = 'u' then
            match readHex4 rest2 with
            | none => none
            | some (n, rest3) =>
              if 0xD800 ≤ n ∧ n < 0xDC00 then
                match rest3 with
                | '\\' :: 'u' :: rest4 =>
                  match readHex4 rest4 with
                  | some (m, rest5) =>
                    if 0xDC00 ≤ m ∧ m < 0xE000 then
                      parseStringRest fuel
                        (Char.ofNat
                          (0x10000 + (n - 0xD800) * 0x400 + (m - 0xDC00))
                            :: acc) rest5
                    else none
                  | none => none
                | _ => none
              else if 0xDC00 ≤ n ∧ n < 0xE000 then none
              else parseStringRest fuel (Char.ofNat n :: acc) rest3
          else none
      else if c.toNat < 0x20 then none
      else parseStringRest fuel (c :: acc) rest

/-- Longest run of decimal digits at the front. -/
def takeDigits : List Char → List Char × List Char
  | [] => ([], [])
  | c :: cs =>
    if c.isDigit then
      let (d, r) := takeDigits cs
      (c :: d, r)
    else ([], c :: cs)

/-- Lex the fractional part of a JSON number, if present. -/
def lexFrac : List Char → Option (List Char × List Char)
  | '.' :: rest =>
    let (d, r) := takeDigits rest
    if d = [] then none else some ('.' :: d, r)
  | cs => some ([], cs)

/-- Lex the exponent part of a JSON number, if present. -/
def lexExp : List Char → Option (List Char × List Char)
  | e :: rest =>
    if e = 'e' ∨ e = 'E' then
      let (sgn, rest2) :=
        match rest with
        | '+' :: r => (['+'], r)
        | '-' :: r => (['-'], r)
        | _ => ([], rest)
      let (d, r) := takeDigits rest2
      if d = [] then none else some (e :: (sgn ++ d), r)
    else some ([], e :: rest)
  | [] => some ([], [])

/-- Lex a JSON number (grammar `-? int frac? exp?`), returning its raw
lexeme.  JSON forbids leading zeros in the integer part. -/
def lexNumber (cs : List Char) : Option (String × List Char) :=
  let (sign, cs1) :=
    match cs with
    | '-' :: rest => (['-'], rest)
    | _ => ([], cs)
  match cs1 with
  | [] => none
  | c :: _ =>
    if ¬ c.isDigit then none
    else
      let (intPart, cs2) := takeDigits cs1
      if intPart.length > 1 ∧ intPart.headD '0' = '0' then none
      else
        match lexFrac cs2 with
        | none => none
        | some (fracPart, cs3) =>
          match lexExp cs3 with
          | none => none
          | some (expPart, cs4) =>
            some (String.mk (sign ++ intPart ++ fracPart ++ expPart), cs4)

/-- Does the list start with the given characters? -/
def charsStartWith : List Char → List Char → Bool
  | [], _ => true
  | _ :: _, [] => false
  | p :: ps, c :: cs => p = c && charsStartWith ps cs

mutual

/-- Parse one JSON value (CPython `json.loads` grammar, which also accepts
`NaN`, `Infinity` and `-Infinity`). -/
def parseValue (fuel : Nat) (cs : List Char) :
    Option (Json × List Char) :=
  match fuel with
  | 0 => none
  | fuel + 1 =>
    match skipWs cs with
    | [] => none
    | c :: rest =>
      if c = '{' then parseMembers fuel true [] rest
      else if c = '[' then parseElements fuel true [] rest
      else if c = '"' then
        (parseStringRest fuel [] rest).map (fun p => (Json.str p.1, p.2))
      else if charsStartWith ['t', 'r', 'u', 'e'] (c :: rest) then
        some (Json.bool true, (c :: rest).drop 4)
      else if charsStartWith ['f', 'a', 'l', 's', 'e'] (c :: rest) then
        some (Json.bool false, (c :: rest).drop 5)
      else if charsStartWith ['n', 'u', 'l', 'l'] (c :: rest) then
        some (Json.null, (c :: rest).drop 4)
      else if charsStartWith ['N', 'a', 'N'] (c :: rest) then
        some (Json.num "NaN", (c :: rest).drop 3)
      else if charsStartWith ['I', 'n', 'f', 'i', 'n', 'i', 't', 'y']
          (c :: rest) then
        some (Json.num "Infinity", (c :: rest).drop 8)
      else if charsStartWith ['-', 'I', 'n', 'f', 'i', 'n', 'i', 't', 'y']
          (c :: rest) then
        some (Json.num "-Infinity", (c :: rest).drop 9)
      else
        (lexNumber (c :: rest)).map (fun p => (Json.num p.1, p.2))

/-- Parse the members of an object after `{` (or after a `,`); `first` is
true before the first member. -/
def parseMembers (fuel : Nat) (first : Bool)
    (acc : List (String × Json)) (cs : List Char) :
    Option (Json × List Char) :=
  match fuel with
  | 0 => none
  | fuel + 1 =>
    match skipWs cs with
    | [] => none
    | c :: rest =>
      if c = '}' ∧ first then some (Json.obj acc.reverse, rest)
      else
        if c = '"' then
          match parseStringRest fuel [] rest with
          | none => none
          | some (k, rest2) =>
            match skipWs rest2 with
            | ':' :: rest3 =>
              match parseValue fuel rest3 with
              | none => none
              | some (v, rest4) =>
                match skipWs rest4 with
                | ',' :: rest5 => parseMembers fuel false ((k, v) :: acc) rest5
                | '}' :: rest5 => some (Json.obj ((k, v) :: acc).reverse, rest5)
                | _ => none
            | _ => none
        else none

/-- Parse the elements of an array after `[` (or after a `,`). -/
def parseElements (fuel : Nat) (first : Bool)
    (acc : List Json) (cs : List Char) :
    Option (Json × List Char) :=
  match fuel with
  | 0 => none
  | fuel + 1 =>
    match skipWs cs with
    | [] => none
    | c :: rest =>
      if c = ']' ∧ first then some (Json.arr acc.reverse, rest)
      else
        match parseValue fuel (c :: rest) with
        | none => none
        | some (v, rest2) =>
          match skipWs rest2 with
          | ',' :: rest3 => parseElements fuel false (v :: acc) rest3
          | ']' :: rest3 => some (Json.arr (v :: acc).reverse, rest3)
          | _ => none

end

/-- Model of Python's `json.loads`: parse one value and require the whole
input to be consumed (up to trailing whitespace); `none` models a raised
`json.JSONDecodeError`. -/
def jsonParse (s : String) : Option Json :=
  match parseValue (2 * s.length + 2) s.data with
  | none => none
  | some (v, rest) =>
    match skipWs rest with
    | [] => some v
    | _ :: _ => none

/-! ## A model of `json.dumps` (default options, `ensure_ascii = True`) -/

/-- Lowercase hexadecimal digit. -/
def hexDigitChar (n : Nat) : Char :=
  if n < 10 then Char.ofNat ('0'.toNat + n) else Char.ofNat ('a'.toNat + (n - 10))

/-- Four lowercase hex digits, as in Python's `\uXXXX` escapes. -/
def hex4 (n : Nat) : String :=
  String.mk [hexDigitChar (n / 4096 % 16), hexDigitChar (n / 256 % 16),
    hexDigitChar (n / 16 % 16), hexDigitChar (n % 16)]

/-- Escape one character the way CPython's `json.dumps` does with
`ensure_ascii=True`: short escapes for the named control characters, `\uXXXX`
for other characters outside `0x20..0x7e`, surrogate pairs above `0xFFFF`. -/
def jsonEscChar (c : Char) : String :=
  if c = '"' then "\\\""
  else if c = '\\' then "\\\\"
  else if c = '\n' then "\\n"
  else if c = '\t' then "\\t"
  else if c = '\r' then "\\r"
  else if c = '\x08' then "\\b"
  else if c = '\x0c' then "\\f"
  else if c.toNat < 0x20 ∨ c.toNat > 0x7e then
    if c.toNat ≤ 0xFFFF then "\\u" ++ hex4 c.toNat
    else
      let v := c.toNat - 0x10000
      "\\u" ++ hex4 (0xD800 + v / 0x400) ++ "\\u" ++ hex4 (0xDC00 + v % 0x400)
  else String.singleton c

/-- A JSON string literal for `s`. -/
def jsonQuote (s : String) : String :=
  "\"" ++ String.join (s.data.map jsonEscChar) ++ "\""

mutual

/-- Model of Python's `json.dumps` with default options (item separator
`", "`, key separator `": "`). -/
def jsonDumps : Json → String
  | Json.null => "null"
  | Json.bool true => "true"
  | Json.bool false => "false"
  | Json.num raw => raw
  | Json.str s => jsonQuote s
  | Json.arr xs => "[" ++ jsonDumpsArr xs ++ "]"
  | Json.obj fs => "\x7b" ++ jsonDumpsObj fs ++ "\x7d"

/-- Comma-separated dump of array elements. -/
def jsonDumpsArr : List Json → String
  | [] => ""
  | [x] => jsonDumps x
  | x :: y :: rest => jsonDumps x ++ ", " ++ jsonDumpsArr (y :: rest)

/-- Comma-separated dump of object members. -/
def jsonDumpsObj : List (String × Json) → String
  | [] => ""
  | [(k, v)] => jsonQuote k ++ ": " ++ jsonDumps v
  | (k, v) :: q :: rest =>
    jsonQuote k ++ ": " ++ jsonDumps v ++ ", " ++ jsonDumpsObj (q :: rest)

end

/-! ## The handler (`src/lambda/handler.py`) -/

/-- The invocation event; the handler reads `event.get('body', '{}')`, so
only the optional `body` string matters (per the trigger contract, `body`
holds a JSON-encoded string when present). -/
structure Event where
  body : Option String

/-- Environment-sourced configuration, loaded once at module import:
`BUCKET_NAME = os.environ['BUCKET_NAME']` and
`EXPIRE_SECONDS = int(os.getenv('SIGNED_URL_EXPIRE', 120))`. -/
structure Config where
  BUCKET_NAME : String
  EXPIRE_SECONDS : Int

/-- Python exceptions the handler's `try` block can raise: a
`json.JSONDecodeError` from `json.loads`, an `AttributeError` from calling
`.get` on a non-dict or `.startswith` on a non-string, and any exception
raised by the storage backend's signing call. -/
inductive PyError where
  | jsonDecodeError : PyError
  | attributeError : PyError
  | clientError : String → PyError
deriving DecidableEq

/-- The keyword arguments of `s3_client.generate_presigned_url('put_object',
Params={Bucket, Key, ContentType}, ExpiresIn, HttpMethod='PUT')`; the
operation name and HTTP method are the fixed literals shown. -/
structure PresignParams where
  Bucket : String
  Key : String
  ContentType : String
  ExpiresIn : Int
deriving DecidableEq

/-- The Lambda proxy response dict: status code, headers, JSON-encoded
body string. -/
structure Response where
  statusCode : Nat
  headers : List (String × String)
  body : String
deriving DecidableEq

/-- The headers literal repeated in every `return` of the handler. -/
def corsHeaders : List (String × String) :=
  [("Access-Control-Allow-Origin", "*"),
   ("Access-Control-Allow-Headers", "Content-Type")]

/-- `allowed_types = {'image/jpeg', 'image/png', 'image/gif', 'image/webp'}`.
The source builds a Python `set`, used for membership and for
`", ".join(allowed_types)`; the model keeps the literal's order (CPython's
set iteration order is unspecified, and no claim depends on the order). -/
def allowed_types : List String :=
  ["image/jpeg", "image/png", "image/gif", "image/webp"]

/-- The 400 response of the `startswith` check. -/
def invalidContentTypeResponse : Response :=
  { statusCode := 400
    headers := corsHeaders
    body := jsonDumps (Json.obj
      [("error", Json.str "Invalid contentType. Must start with \"image/\".")]) }

/-- The message of the allowed-types check,
`f'Unsupported image type: {content_type}. Allowed: {", ".join(allowed_types)}'`. -/
def unsupportedTypeMsg (content_type : String) : String :=
  "Unsupported image type: " ++ content_type ++ ". Allowed: " ++
    String.intercalate ", " allowed_types

/-- The 400 response of the allowed-types check. -/
def unsupportedTypeResponse (content_type : String) : Response :=
  { statusCode := 400
    headers := corsHeaders
    body := jsonDumps (Json.obj
      [("error", Json.str (unsupportedTypeMsg content_type))]) }

/-- The 200 response. -/
def successResponse (url key : String) : Response :=
  { statusCode := 200
    headers := corsHeaders
    body := jsonDumps (Json.obj [("url", Json.str url), ("key", Json.str key)]) }

/-- The 500 response of the `except Exception` block (the exception detail
goes to the log only, never into the response). -/
def internalErrorResponse : Response :=
  { statusCode := 500
    headers := corsHeaders
    body := jsonDumps (Json.obj
      [("error", Json.str "Internal server error. Failed to generate upload URL.")]) }

/-- Python's `s.startswith(pre)`. -/
def pyStartsWith (s pre : String) : Bool :=
  charsStartWith pre.data s.data

/-- Helper for `pySplit`: split at every separator, accumulating the
current piece in reverse. -/
def pySplitAux (sep : Char) : List Char → List Char → List (List Char)
  | [], acc => [acc.reverse]
  | c :: cs, acc =>
    if c = sep then acc.reverse :: pySplitAux sep cs []
    else pySplitAux sep cs (c :: acc)

/-- Python's `s.split(sep)` for a one-character separator: always a
non-empty list (`"".split('/') == ['']`). -/
def pySplit (sep : Char) (s : String) : List String :=
  (pySplitAux sep s.data []).map String.mk

/-- Python's slice `s[:n]`: the first `n` characters of `s` (all of `s`
when it is shorter). -/
def pyTake (n : Nat) (s : String) : String :=
  String.mk (s.data.take n)

/-- `object_key = f"uploads/{timestamp}-{random_suffix}.{ext}"` with
`random_suffix = str(uuid.uuid4())[:6]` and
`ext = content_type.split('/')[-1]` (`pySplit` never returns `[]`, so
`getLastD` models Python's `[-1]` faithfully). -/
def object_key (timestamp : Nat) (uuidStr content_type : String) : String :=
  "uploads/" ++ Nat.repr timestamp ++ "-" ++ pyTake 6 uuidStr ++ "." ++
    (pySplit '/' content_type).getLastD ""

/-- The arguments the handler passes to the signing call: the configured
bucket, the derived object key, the request's content type, and the
configured expiry. -/
def presignParams (cfg : Config) (timestamp : Nat)
    (uuidStr content_type : String) : PresignParams :=
  { Bucket := cfg.BUCKET_NAME
    Key := object_key timestamp uuidStr content_type
    ContentType := content_type
    ExpiresIn := cfg.EXPIRE_SECONDS }

/-- The body of the handler's `try` block.  Effects are explicit inputs:
`timestamp` is `int(time.time())`, `uuidStr` is `str(uuid.uuid4())`, and
`presign` is the storage backend's signing call, which either returns the
signed URL or raises.  An `Except.error` is a raised exception reaching the
`except Exception` clause. -/
def lambdaHandlerTry (cfg : Config) (event : Event) (timestamp : Nat)
    (uuidStr : String) (presign : PresignParams → Except PyError String) :
    Except PyError Response :=
  -- body = json.loads(event.get('body', '{}'))
  match jsonParse (event.body.getD "\x7b\x7d") with
  | none => Except.error PyError.jsonDecodeError
  | some bodyJson =>
    -- body.get raises AttributeError unless json.loads produced a dict
    match bodyJson with
    | Json.obj fields =>
      -- content_type = body.get('contentType', '')
      -- file_name = body.get('fileName', '') is bound but never used
      -- content_type.startswith('image/') raises AttributeError on a
      -- non-string content_type
      match (getField fields "contentType").getD (Json.str "") with
      | Json.str content_type =>
        if ¬ pyStartsWith content_type "image/" then
          Except.ok invalidContentTypeResponse
        -- if content_type not in allowed_types
        else if ¬ allowed_types.contains content_type then
          Except.ok (unsupportedTypeResponse content_type)
        else
          let key := object_key timestamp uuidStr content_type
          let params : PresignParams :=
            { Bucket := cfg.BUCKET_NAME, Key := key,
              ContentType := content_type, ExpiresIn := cfg.EXPIRE_SECONDS }
          match presign params with
          | Except.error e => Except.error e
          | Except.ok url => Except.ok (successResponse url key)
      | _ => Except.error PyError.attributeError
    | _ => Except.error PyError.attributeError

/-- `lambda_handler`: the `try` block wrapped by
`except Exception: return <500 response>`.  The function is total: every
invocation yields a `Response`, nothing propagates to the runtime. -/
def lambda_handler (cfg : Config) (event : Event) (timestamp : Nat)
    (uuidStr : String) (presign : PresignParams → Except PyError String) :
    Response :=
  match lambdaHandlerTry cfg event timestamp uuidStr presign with
  | Except.ok r => r
  | Except.error _ => internalErrorResponse

/-- Model of Python `int(str)` on the strings relevant here (optional sign,
decimal digits, surrounding whitespace); `none` models a raised
`ValueError`. -/
def pyIntOfString (s : String) : Option Int :=
  s.trim.toInt?

/-- `EXPIRE_SECONDS = int(os.getenv('SIGNED_URL_EXPIRE', 120))`: when the
variable is absent `os.getenv` returns the integer default `120` and
`int(120) = 120`; when present the string is parsed (a parse failure
raises at module load). -/
def loadExpireSeconds (envVal : Option String) : Option Int :=
  match envVal with
  | none => some 120
  | some s => pyIntOfString s

/-! ## Specification predicates -/

/-- `sub` occurs contiguously inside `s`. -/
def containsSubstr (s sub : String) : Prop :=
  ∃ a b : String, s = a ++ sub ++ b

/-- The spec's key pattern `uploads/\d+-[A-Za-z0-9-]{6}\.png`: a digit run,
a dash, exactly six characters from `[A-Za-z0-9-]`, and the `.png`
extension. -/
def matchesUploadKeyPng (s : String) : Prop :=
  ∃ t r : String,
    s = "uploads/" ++ t ++ "-" ++ r ++ ".png" ∧
    t ≠ "" ∧ (∀ c ∈ t.data, c.isDigit) ∧
    r.length = 6 ∧ (∀ c ∈ r.data, c.isAlphanum ∨ c = '-')

/-! ## Concrete fixtures used by witnesses and counterexamples -/

/-- A concrete configuration. -/
def testConfig : Config :=
  { BUCKET_NAME := "test-bucket", EXPIRE_SECONDS := 120 }

/-- A backend whose signing call succeeds, echoing the key into the URL. -/
def okPresign : PresignParams → Except PyError String :=
  fun p => Except.ok ("https://test-bucket.s3.amazonaws.com/" ++ p.Key)

/-- A backend whose signing call raises (simulated signing failure). -/
def failPresign : PresignParams → Except PyError String :=
  fun _ => Except.error (PyError.clientError "An error occurred (AccessDenied)")

/-! ## Control-flow lemmas about the handler -/

/-- A `json.loads` failure reaches the `except` clause. -/
theorem handlerTry_of_parse_none (cfg : Config) (event : Event) (ts : Nat)
    (u : String) (presign : PresignParams → Except PyError String)
    (h : jsonParse (event.body.getD "\x7b\x7d") = none) :
    lambdaHandlerTry cfg event ts u presign =
      Except.error PyError.jsonDecodeError := by
  unfold lambdaHandlerTry
  rw [h]

/-- Once the body parses to a dict whose `contentType` (after the `''`
default) is the string `ct`, the whole `try` block is the two validations
followed by the signing call. -/
theorem handlerTry_of_ct (cfg : Config) (event : Event) (ts : Nat)
    (u : String) (presign : PresignParams → Except PyError String)
    (fields : List (String × Json)) (ct : String)
    (hparse : jsonParse (event.body.getD "\x7b\x7d") = some (Json.obj fields))
    (hct : (getField fields "contentType").getD (Json.str "") = Json.str ct) :
    lambdaHandlerTry cfg event ts u presign =
      if ¬ pyStartsWith ct "image/" then Except.ok invalidContentTypeResponse
      else if ¬ allowed_types.contains ct then
        Except.ok (unsupportedTypeResponse ct)
      else
        match presign (presignParams cfg ts u ct) with
        | Except.error e => Except.error e
        | Except.ok url =>
          Except.ok (successResponse url (object_key ts u ct)) := by
  unfold lambdaHandlerTry
  rw [hparse]
  dsimp only
  rw [hct]
  rfl

/-- A body that is JSON but not an object makes `body.get` raise
`AttributeError`. -/
theorem handlerTry_of_nonobj (cfg : Config) (event : Event) (ts : Nat)
    (u : String) (presign : PresignParams → Except PyError String)
    (v : Json)
    (hparse : jsonParse (event.body.getD "\x7b\x7d") = some v)
    (hv : ∀ fs, v ≠ Json.obj fs) :
    lambdaHandlerTry cfg event ts u presign =
      Except.error PyError.attributeError := by
  unfold lambdaHandlerTry
  rw [hparse]
  cases v with
  | obj fs => exact absurd rfl (hv fs)
  | null => rfl
  | bool b => rfl
  | num m => rfl
  | str t => rfl
  | arr xs => rfl

/-- A non-string `contentType` value makes `content_type.startswith` raise
`AttributeError`. -/
theorem handlerTry_of_ct_nonstr (cfg : Config) (event : Event) (ts : Nat)
    (u : String) (presign : PresignParams → Except PyError String)
    (fields : List (String × Json)) (v : Json)
    (hparse : jsonParse (event.body.getD "\x7b\x7d") = some (Json.obj fields))
    (hv : (getField fields "contentType").getD (Json.str "") = v)
    (hnotstr : ∀ t, v ≠ Json.str t) :
    lambdaHandlerTry cfg event ts u presign =
      Except.error PyError.attributeError := by
  unfold lambdaHandlerTry
  rw [hparse]
  dsimp only
  rw [hv]
  cases v with
  | str t => exact absurd rfl (hnotstr t)
  | null => rfl
  | bool b => rfl
  | num m => rfl
  | arr xs => rfl
  | obj fs => rfl

/-- The handler depends on the parsed body only through the `contentType`
field. -/
theorem handlerTry_congr (cfg : Config) (e1 e2 : Event) (ts : Nat)
    (u : String) (presign : PresignParams → Except PyError String)
    (f1 f2 : List (String × Json))
    (hp1 : jsonParse (e1.body.getD "\x7b\x7d") = some (Json.obj f1))
    (hp2 : jsonParse (e2.body.getD "\x7b\x7d") = some (Json.obj f2))
    (hct : (getField f1 "contentType").getD (Json.str "") =
      (getField f2 "contentType").getD (Json.str "")) :
    lambdaHandlerTry cfg e1 ts u presign =
      lambdaHandlerTry cfg e2 ts u presign := by
  unfold lambdaHandlerTry
  rw [hp1, hp2]
  dsimp only
  rw [hct]

/-- Every `Except.ok` result of the `try` block carries the CORS headers. -/
theorem handlerTry_ok_headers (cfg : Config) (event : Event) (ts : Nat)
    (u : String) (presign : PresignParams → Except PyError String)
    (r : Response) (h : lambdaHandlerTry cfg event ts u presign = Except.ok r) :
    r.headers = corsHeaders := by
  unfold lambdaHandlerTry at h
  split at h
  · exact absurd h (by simp)
  · split at h
    · split at h
      · split at h
        · cases h; rfl
        · split at h
          · cases h; rfl
          · dsimp only at h
            split at h
            · exact absurd h (by simp)
            · cases h; rfl
      · exact absurd h (by simp)
    · exact absurd h (by simp)

/-! ## Arithmetic and string helper lemmas -/

/-- `Nat.digitChar` sends `0..9` to `'0'..'9'`. -/
theorem digitChar_isDigit (n : Nat) (h : n < 10) :
    (Nat.digitChar n).isDigit = true := by
  interval_cases n <;> decide

/-- Every character `Nat.toDigitsCore` emits over digit accumulators is a
decimal digit. -/
theorem toDigitsCore_digits (f : Nat) :
    ∀ (n : Nat) (ds : List Char), (∀ c ∈ ds, c.isDigit = true) →
    ∀ c ∈ Nat.toDigitsCore 10 f n ds, c.isDigit = true := by
  induction f with
  | zero => intro n ds hds; simpa [Nat.toDigitsCore] using hds
  | succ f ih =>
    intro n ds hds c hc
    simp only [Nat.toDigitsCore] at hc
    split at hc
    · rcases List.mem_cons.mp hc with rfl | hmem
      · exact digitChar_isDigit _ (Nat.mod_lt _ (by decide))
      · exact hds c hmem
    · refine ih (n / 10) (Nat.digitChar (n % 10) :: ds) ?_ c hc
      intro d hd
      rcases List.mem_cons.mp hd with rfl | hmem
      · exact digitChar_isDigit _ (Nat.mod_lt _ (by decide))
      · exact hds d hmem

/-- The decimal representation of a natural number is all digits. -/
theorem repr_digits (n : Nat) : ∀ c ∈ (Nat.repr n).data, c.isDigit = true := by
  intro c hc
  exact toDigitsCore_digits (n + 1) n [] (by simp) c hc

/-- `Nat.toDigitsCore` with positive fuel emits at least one character. -/
theorem toDigitsCore_ne_nil (f n : Nat) (ds : List Char) :
    Nat.toDigitsCore 10 (f + 1) n ds ≠ [] := by
  have key : ∀ (g : Nat) (m : Nat) (l : List Char),
      Nat.toDigitsCore 10 g m l = [] → l = [] := by
    intro g
    induction g with
    | zero => intro m l h; simpa [Nat.toDigitsCore] using h
    | succ g ih =>
      intro m l h
      simp only [Nat.toDigitsCore] at h
      split at h
      · exact absurd h (by simp)
      · exact absurd (ih _ _ h) (by simp)
  intro h
  simp only [Nat.toDigitsCore] at h
  split at h
  · exact absurd h (by simp)
  · exact absurd (key _ _ _ h) (by simp)

/-- The decimal representation of a natural number is never empty. -/
theorem repr_ne_empty (n : Nat) : Nat.repr n ≠ "" := by
  intro h
  have hdata : (Nat.repr n).data = [] := by rw [h]
  exact toDigitsCore_ne_nil n n [] hdata

/-- `ct ∈ allowed_types` implies `ct.startswith('image/')`. -/
theorem allowed_types_start (ct : String)
    (h : allowed_types.contains ct = true) :
    pyStartsWith ct "image/" = true := by
  have hmem : ct ∈ allowed_types := List.mem_of_elem_eq_true h
  simp only [allowed_types, List.mem_cons, List.not_mem_nil, or_false] at hmem
  rcases hmem with rfl | rfl | rfl | rfl <;> rfl

/-- C8: two invocations within the same second (equal `timestamp`) with the
same valid `contentType` derive equal keys if and only if the six-character
random suffixes (`str(uuid.uuid4())[:6]`) are equal; distinctness therefore
reduces to distinctness of the random suffixes, which holds with
overwhelming probability for uuid4 draws. -/
theorem claim8_same_second_keys_iff_suffixes (ts : Nat) (u1 u2 ct : String) :
    object_key ts u1 ct = object_key ts u2 ct ↔ pyTake 6 u1 = pyTake 6 u2 := by
  constructor
  · intro h
    unfold object_key at h
    have hd := congrArg String.data h
    simp only [String.data_append, List.append_assoc] at hd
    have h1 := List.append_cancel_left hd
    have h2 := List.append_cancel_left h1
    have h3 := List.append_cancel_left h2
    have h4 := List.append_cancel_right h3
    exact String.ext h4
  · intro h
    unfold object_key
    rw [h]

/-- Filtering out the bindings of a different key does not change a
last-binding-wins lookup. -/
theorem find?_filter_ne (l : List (String × Json)) (k k' : String)
    (hne : k ≠ k') :
    (l.filter (fun p => p.1 != k')).find? (fun p => p.1 == k) =
      l.find? (fun p => p.1 == k) := by
  induction l with
  | nil => rfl
  | cons p l ih =>
    by_cases h2 : p.1 = k'
    · have hfind : (p.1 == k) = false := by
        simp only [beq_eq_false_iff_ne, ne_eq, h2]
        exact fun he => hne he.symm
      have hfind2 : (k' == k) = false := h2 ▸ hfind
      simp only [List.filter_cons, h2, bne_self_eq_false, Bool.false_eq_true,
        if_false, List.find?_cons, hfind2, ih]
    · have hkeep : (p.1 != k') = true := by simp [h2]
      simp only [List.filter_cons, hkeep, if_true, List.find?_cons]
      by_cases h1 : (p.1 == k) = true
      · simp only [h1]
      · simp only [Bool.of_not_eq_true h1, ih]

/-- `body.get(k)` is unchanged by dropping the bindings of another key. -/
theorem getField_removeField (fs : List (String × Json)) (k k' : String)
    (hne : k ≠ k') :
    getField (removeField k' fs) k = getField fs k := by
  unfold getField removeField
  rw [← List.filter_reverse, find?_filter_ne fs.reverse k k' hne]

/-! ## The claims -/

/-- C1 (amended): a missing body is treated identically to the body
`"{}"` — contentType is absent, defaulting to the empty string, and the
response is the 400 "Invalid contentType" rejection.  An unparsable
(non-JSON) body, however, is NOT treated like `"{}"`: `json.loads` raises,
the `except Exception` clause catches it, and the response is the 500
internal-error response. -/
theorem claim1_missing_body_400_unparsable_body_500 (cfg : Config) (ts : Nat)
    (u : String) (presign : PresignParams → Except PyError String) :
    lambda_handler cfg ⟨none⟩ ts u presign = invalidContentTypeResponse ∧
    ∀ s : String, jsonParse s = none →
      lambda_handler cfg ⟨some s⟩ ts u presign = internalErrorResponse := by
  constructor
  · rfl
  · intro s hs
    unfold lambda_handler
    rw [handlerTry_of_parse_none cfg ⟨some s⟩ ts u presign hs]

/-- C1 counterexample: with the unparsable body `"]"` the handler does not
behave identically to an invocation with body `"{}"`: the former yields
status 500, the latter the 400 rejection the claim predicts for both. -/
theorem claim1_counterexample :
    lambda_handler testConfig ⟨some "]"⟩ 0 "" okPresign ≠
      lambda_handler testConfig ⟨some "\x7b\x7d"⟩ 0 "" okPresign ∧
    (lambda_handler testConfig ⟨some "]"⟩ 0 "" okPresign).statusCode = 500 ∧
    (lambda_handler testConfig ⟨some "\x7b\x7d"⟩ 0 ""
      okPresign).statusCode = 400 := by
  refine ⟨?_, rfl, rfl⟩
  decide

/-- C1 witness: the amended theorem applied to the unparsable body `"]"`. -/
theorem claim1_witness :
    jsonParse "]" = none ∧
    lambda_handler testConfig ⟨some "]"⟩ 0 "" okPresign =
      internalErrorResponse :=
  ⟨rfl, (claim1_missing_body_400_unparsable_body_500 testConfig 0 ""
    okPresign).2 "]" rfl⟩

/-- C2: whenever the body parses to a JSON object whose contentType (after
the `''` default for an absent field) is a string not starting with
`"image/"`, the handler returns status 400 with body
`{"error": "Invalid contentType. Must start with \"image/\"."}`. -/
theorem claim2_non_image_rejected (cfg : Config) (s : String) (ts : Nat)
    (u : String) (presign : PresignParams → Except PyError String)
    (fields : List (String × Json)) (ct : String)
    (hparse : jsonParse s = some (Json.obj fields))
    (hct : (getField fields "contentType").getD (Json.str "") = Json.str ct)
    (hns : pyStartsWith ct "image/" = false) :
    lambda_handler cfg ⟨some s⟩ ts u presign = invalidContentTypeResponse ∧
    invalidContentTypeResponse.statusCode = 400 ∧
    invalidContentTypeResponse.body = jsonDumps (Json.obj
      [("error", Json.str "Invalid contentType. Must start with \"image/\".")]) := by
  refine ⟨?_, rfl, rfl⟩
  unfold lambda_handler
  rw [handlerTry_of_ct cfg ⟨some s⟩ ts u presign fields ct hparse hct, hns]
  rfl

/-- C2 witness: the theorem applied to contentType `"text/plain"`. -/
theorem claim2_witness :
    jsonParse "\x7b\"contentType\": \"text/plain\"\x7d" =
      some (Json.obj [("contentType", Json.str "text/plain")]) ∧
    pyStartsWith "text/plain" "image/" = false ∧
    lambda_handler testConfig ⟨some "\x7b\"contentType\": \"text/plain\"\x7d"⟩
      0 "" okPresign = invalidContentTypeResponse :=
  ⟨rfl, rfl,
    (claim2_non_image_rejected testConfig
      "\x7b\"contentType\": \"text/plain\"\x7d" 0 "" okPresign
      [("contentType", Json.str "text/plain")] "text/plain" rfl rfl rfl).1⟩

/-- C3: a string contentType starting with `"image/"` but outside the
allowed set is rejected with status 400 and a message containing both the
rejected type and every member of the allowed list. -/
theorem claim3_unsupported_image_rejected (cfg : Config) (s : String)
    (ts : Nat) (u : String) (presign : PresignParams → Except PyError String)
    (fields : List (String × Json)) (ct : String)
    (hparse : jsonParse s = some (Json.obj fields))
    (hct : (getField fields "contentType").getD (Json.str "") = Json.str ct)
    (hst : pyStartsWith ct "image/" = true)
    (hmem : allowed_types.contains ct = false) :
    lambda_handler cfg ⟨some s⟩ ts u presign = unsupportedTypeResponse ct ∧
    (unsupportedTypeResponse ct).statusCode = 400 ∧
    (unsupportedTypeResponse ct).body =
      jsonDumps (Json.obj [("error", Json.str (unsupportedTypeMsg ct))]) ∧
    containsSubstr (unsupportedTypeMsg ct) ct ∧
    ∀ t ∈ allowed_types, containsSubstr (unsupportedTypeMsg ct) t := by
  refine ⟨?_, rfl, rfl, ?_, ?_⟩
  · unfold lambda_handler
    rw [handlerTry_of_ct cfg ⟨some s⟩ ts u presign fields ct hparse hct, hst,
      hmem]
    rfl
  · refine ⟨"Unsupported image type: ",
      ". Allowed: " ++ String.intercalate ", " allowed_types, ?_⟩
    simp only [unsupportedTypeMsg, String.append_assoc]
  · intro t ht
    simp only [allowed_types, List.mem_cons, List.not_mem_nil, or_false] at ht
    rcases ht with rfl | rfl | rfl | rfl
    · refine ⟨"Unsupported image type: " ++ ct ++ ". Allowed: ",
        ", image/png, image/gif, image/webp", ?_⟩
      simp only [unsupportedTypeMsg, String.append_assoc]
      rfl
    · refine ⟨"Unsupported image type: " ++ ct ++ ". Allowed: image/jpeg, ",
        ", image/gif, image/webp", ?_⟩
      simp only [unsupportedTypeMsg, String.append_assoc]
      rfl
    · refine ⟨"Unsupported image type: " ++ ct ++
        ". Allowed: image/jpeg, image/png, ", ", image/webp", ?_⟩
      simp only [unsupportedTypeMsg, String.append_assoc]
      rfl
    · refine ⟨"Unsupported image type: " ++ ct ++
        ". Allowed: image/jpeg, image/png, image/gif, ", "", ?_⟩
      simp only [unsupportedTypeMsg, String.append_assoc]
      rfl

/-- C3 witness: the theorem applied to contentType `"image/svg+xml"`. -/
theorem claim3_witness :
    jsonParse "\x7b\"contentType\": \"image/svg+xml\"\x7d" =
      some (Json.obj [("contentType", Json.str "image/svg+xml")]) ∧
    pyStartsWith "image/svg+xml" "image/" = true ∧
    allowed_types.contains "image/svg+xml" = false ∧
    lambda_handler testConfig
      ⟨some "\x7b\"contentType\": \"image/svg+xml\"\x7d"⟩ 0 "" okPresign =
      unsupportedTypeResponse "image/svg+xml" :=
  ⟨rfl, rfl, rfl,
    (claim3_unsupported_image_rejected testConfig
      "\x7b\"contentType\": \"image/svg+xml\"\x7d" 0 "" okPresign
      [("contentType", Json.str "image/svg+xml")] "image/svg+xml"
      rfl rfl rfl rfl).1⟩

/-- C4: for contentType `"image/png"`, when the signing call succeeds with
a non-empty URL, the handler returns status 200 with that url and a key
matching `uploads/\d+-[A-Za-z0-9-]{6}\.png`.  The suffix hypotheses hold
for every uuid4 value: `str(uuid.uuid4())` is 36 characters over
`[0-9a-f-]`, so its first six characters are six characters from
`[A-Za-z0-9-]`. -/
theorem claim4_png_success (cfg : Config) (s : String) (ts : Nat)
    (u : String) (presign : PresignParams → Except PyError String)
    (fields : List (String × Json)) (url : String)
    (hparse : jsonParse s = some (Json.obj fields))
    (hct : (getField fields "contentType").getD (Json.str "") =
      Json.str "image/png")
    (hlen : (pyTake 6 u).length = 6)
    (hchars : ∀ c ∈ (pyTake 6 u).data, c.isAlphanum ∨ c = '-')
    (hsign : presign (presignParams cfg ts u "image/png") = Except.ok url)
    (hurl : url ≠ "") :
    lambda_handler cfg ⟨some s⟩ ts u presign =
      successResponse url (object_key ts u "image/png") ∧
    (successResponse url (object_key ts u "image/png")).statusCode = 200 ∧
    matchesUploadKeyPng (object_key ts u "image/png") ∧
    url ≠ "" := by
  refine ⟨?_, rfl, ?_, hurl⟩
  · unfold lambda_handler
    rw [handlerTry_of_ct cfg ⟨some s⟩ ts u presign fields "image/png" hparse
      hct, if_neg (by decide), if_neg (by decide), hsign]
  · refine ⟨Nat.repr ts, pyTake 6 u, ?_, repr_ne_empty ts, repr_digits ts,
      hlen, hchars⟩
    simp only [object_key, String.append_assoc]
    rfl

/-- C4 witness: the theorem applied to a concrete png request. -/
theorem claim4_witness :
    jsonParse "\x7b\"contentType\": \"image/png\"\x7d" =
      some (Json.obj [("contentType", Json.str "image/png")]) ∧
    (pyTake 6 "3f2a9cdeadbeef").length = 6 ∧
    (∀ c ∈ (pyTake 6 "3f2a9cdeadbeef").data, c.isAlphanum ∨ c = '-') ∧
    okPresign (presignParams testConfig 1700000000 "3f2a9cdeadbeef"
        "image/png") =
      Except.ok
        "https://test-bucket.s3.amazonaws.com/uploads/1700000000-3f2a9c.png" ∧
    lambda_handler testConfig ⟨some "\x7b\"contentType\": \"image/png\"\x7d"⟩
        1700000000 "3f2a9cdeadbeef" okPresign =
      successResponse
        "https://test-bucket.s3.amazonaws.com/uploads/1700000000-3f2a9c.png"
        (object_key 1700000000 "3f2a9cdeadbeef" "image/png") ∧
    matchesUploadKeyPng (object_key 1700000000 "3f2a9cdeadbeef" "image/png") := by
  have h := claim4_png_success testConfig
    "\x7b\"contentType\": \"image/png\"\x7d" 1700000000 "3f2a9cdeadbeef"
    okPresign [("contentType", Json.str "image/png")]
    "https://test-bucket.s3.amazonaws.com/uploads/1700000000-3f2a9c.png"
    rfl rfl rfl (by decide) rfl (by decide)
  exact ⟨rfl, rfl, by decide, rfl, h.1, h.2.2.1⟩

/-- C5: every response the handler returns — on every input, every
timestamp, every uuid, and every backend behaviour, hence for the 200, 400
and 500 outcomes alike — carries exactly the two CORS headers
`Access-Control-Allow-Origin: *` and
`Access-Control-Allow-Headers: Content-Type`. -/
theorem claim5_cors_on_every_response (cfg : Config) (event : Event)
    (ts : Nat) (u : String)
    (presign : PresignParams → Except PyError String) :
    (lambda_handler cfg event ts u presign).headers = corsHeaders ∧
    corsHeaders = [("Access-Control-Allow-Origin", "*"),
      ("Access-Control-Allow-Headers", "Content-Type")] := by
  refine ⟨?_, rfl⟩
  unfold lambda_handler
  split
  · next r h => exact handlerTry_ok_headers cfg event ts u presign r h
  · rfl

/-- C6: every exception raised inside the `try` block — `json.loads`
failures, `AttributeError`s, and backend signing failures alike — is caught
within the invocation (the handler is a total function into `Response`, so
nothing propagates to the runtime), and the result is exactly the 500
response with the fixed generic body, which is a closed constant
independent of the exception and so never contains the exception text. -/
theorem claim6_all_failures_caught (cfg : Config) (event : Event) (ts : Nat)
    (u : String) (presign : PresignParams → Except PyError String)
    (e : PyError)
    (h : lambdaHandlerTry cfg event ts u presign = Except.error e) :
    lambda_handler cfg event ts u presign = internalErrorResponse ∧
    internalErrorResponse.statusCode = 500 ∧
    internalErrorResponse.body = jsonDumps (Json.obj [("error",
      Json.str "Internal server error. Failed to generate upload URL.")]) := by
  refine ⟨?_, rfl, rfl⟩
  unfold lambda_handler
  rw [h]

/-- C6 witness: the theorem applied to a simulated backend signing
failure on a valid request. -/
theorem claim6_witness :
    lambdaHandlerTry testConfig ⟨some "\x7b\"contentType\": \"image/png\"\x7d"⟩
        0 "3f2a9cdeadbeef" failPresign =
      Except.error (PyError.clientError "An error occurred (AccessDenied)") ∧
    lambda_handler testConfig ⟨some "\x7b\"contentType\": \"image/png\"\x7d"⟩
        0 "3f2a9cdeadbeef" failPresign = internalErrorResponse :=
  ⟨rfl,
    (claim6_all_failures_caught testConfig
      ⟨some "\x7b\"contentType\": \"image/png\"\x7d"⟩ 0 "3f2a9cdeadbeef"
      failPresign (PyError.clientError "An error occurred (AccessDenied)")
      rfl).1⟩

/-- C7: on every request that passes validation the handler's result is
exactly the signing call applied to the configured bucket, the derived
object key, the request's contentType and the configured expiry — and the
configured expiry is 120 when the SIGNED_URL_EXPIRE environment variable
is absent. -/
theorem claim7_presign_arguments (cfg : Config) (s : String) (ts : Nat)
    (u : String) (presign : PresignParams → Except PyError String)
    (fields : List (String × Json)) (ct : String)
    (hparse : jsonParse s = some (Json.obj fields))
    (hct : (getField fields "contentType").getD (Json.str "") = Json.str ct)
    (hmem : allowed_types.contains ct = true) :
    lambdaHandlerTry cfg ⟨some s⟩ ts u presign =
      Except.map (fun url => successResponse url (object_key ts u ct))
        (presign (presignParams cfg ts u ct)) ∧
    (presignParams cfg ts u ct).Bucket = cfg.BUCKET_NAME ∧
    (presignParams cfg ts u ct).Key = object_key ts u ct ∧
    (presignParams cfg ts u ct).ContentType = ct ∧
    (presignParams cfg ts u ct).ExpiresIn = cfg.EXPIRE_SECONDS ∧
    loadExpireSeconds none = some 120 := by
  refine ⟨?_, rfl, rfl, rfl, rfl, rfl⟩
  rw [handlerTry_of_ct cfg ⟨some s⟩ ts u presign fields ct hparse hct,
    allowed_types_start ct hmem, hmem]
  cases presign (presignParams cfg ts u ct) <;> rfl

/-- C7 witness: the theorem applied to a concrete gif request. -/
theorem claim7_witness :
    jsonParse "\x7b\"contentType\": \"image/gif\"\x7d" =
      some (Json.obj [("contentType", Json.str "image/gif")]) ∧
    allowed_types.contains "image/gif" = true ∧
    lambdaHandlerTry testConfig ⟨some "\x7b\"contentType\": \"image/gif\"\x7d"⟩
        7 "abc123xyz" okPresign =
      Except.map
        (fun url => successResponse url (object_key 7 "abc123xyz" "image/gif"))
        (okPresign (presignParams testConfig 7 "abc123xyz" "image/gif")) ∧
    loadExpireSeconds none = some 120 := by
  have h := claim7_presign_arguments testConfig
    "\x7b\"contentType\": \"image/gif\"\x7d" 7 "abc123xyz" okPresign
    [("contentType", Json.str "image/gif")] "image/gif" rfl rfl rfl
  exact ⟨rfl, rfl, h.1, h.2.2.2.2.2⟩

/-- C9: the fileName field never influences the response: two bodies that
parse to objects agreeing outside the fileName key (same timestamp, same
random value, same backend) yield identical responses. -/
theorem claim9_fileName_never_influences (cfg : Config) (ts : Nat)
    (u : String) (presign : PresignParams → Except PyError String)
    (s1 s2 : String) (f1 f2 : List (String × Json))
    (hp1 : jsonParse s1 = some (Json.obj f1))
    (hp2 : jsonParse s2 = some (Json.obj f2))
    (hsame : removeField "fileName" f1 = removeField "fileName" f2) :
    lambda_handler cfg ⟨some s1⟩ ts u presign =
      lambda_handler cfg ⟨some s2⟩ ts u presign := by
  have hct : getField f1 "contentType" = getField f2 "contentType" := by
    rw [← getField_removeField f1 "contentType" "fileName" (by decide),
      hsame, getField_removeField f2 "contentType" "fileName" (by decide)]
  unfold lambda_handler
  rw [handlerTry_congr cfg ⟨some s1⟩ ⟨some s2⟩ ts u presign f1 f2 hp1 hp2
    (by rw [hct])]

/-- C9 witness: two bodies differing only in fileName yield the same
response. -/
theorem claim9_witness :
    jsonParse "\x7b\"fileName\": \"a.png\", \"contentType\": \"image/png\"\x7d" =
      some (Json.obj [("fileName", Json.str "a.png"),
        ("contentType", Json.str "image/png")]) ∧
    jsonParse "\x7b\"fileName\": \"b.jpg\", \"contentType\": \"image/png\"\x7d" =
      some (Json.obj [("fileName", Json.str "b.jpg"),
        ("contentType", Json.str "image/png")]) ∧
    removeField "fileName" [("fileName", Json.str "a.png"),
        ("contentType", Json.str "image/png")] =
      removeField "fileName" [("fileName", Json.str "b.jpg"),
        ("contentType", Json.str "image/png")] ∧
    lambda_handler testConfig
        ⟨some "\x7b\"fileName\": \"a.png\", \"contentType\": \"image/png\"\x7d"⟩
        3 "deadbeef99" okPresign =
      lambda_handler testConfig
        ⟨some "\x7b\"fileName\": \"b.jpg\", \"contentType\": \"image/png\"\x7d"⟩
        3 "deadbeef99" okPresign :=
  ⟨rfl, rfl, rfl,
    claim9_fileName_never_influences testConfig 3 "deadbeef99" okPresign
      "\x7b\"fileName\": \"a.png\", \"contentType\": \"image/png\"\x7d"
      "\x7b\"fileName\": \"b.jpg\", \"contentType\": \"image/png\"\x7d"
      [("fileName", Json.str "a.png"), ("contentType", Json.str "image/png")]
      [("fileName", Json.str "b.jpg"), ("contentType", Json.str "image/png")]
      rfl rfl rfl⟩

/-- C10: a present but non-string contentType (number, null, boolean,
array, object) makes `content_type.startswith` raise `AttributeError`, so
the handler returns the 500 internal-error response, which is neither of
the 400 validation rejections. -/
theorem claim10_nonstring_contentType_500 (cfg : Config) (s : String)
    (ts : Nat) (u : String)
    (presign : PresignParams → Except PyError String)
    (fields : List (String × Json)) (v : Json)
    (hparse : jsonParse s = some (Json.obj fields))
    (hctv : getField fields "contentType" = some v)
    (hnotstr : ∀ t, v ≠ Json.str t) :
    lambda_handler cfg ⟨some s⟩ ts u presign = internalErrorResponse ∧
    internalErrorResponse.statusCode = 500 ∧
    internalErrorResponse ≠ invalidContentTypeResponse ∧
    ∀ ct, internalErrorResponse ≠ unsupportedTypeResponse ct := by
  refine ⟨?_, rfl, by decide, ?_⟩
  · unfold lambda_handler
    rw [handlerTry_of_ct_nonstr cfg ⟨some s⟩ ts u presign fields v hparse
      (by rw [hctv]; rfl) hnotstr]
  · intro ct h
    have hsc := congrArg Response.statusCode h
    simp only [internalErrorResponse, unsupportedTypeResponse] at hsc
    exact absurd hsc (by decide)

/-- C10 witness: the theorem applied to the numeric contentType `5`. -/
theorem claim10_witness :
    jsonParse "\x7b\"contentType\": 5\x7d" =
      some (Json.obj [("contentType", Json.num "5")]) ∧
    getField [("contentType", Json.num "5")] "contentType" =
      some (Json.num "5") ∧
    lambda_handler testConfig ⟨some "\x7b\"contentType\": 5\x7d"⟩ 0 ""
      okPresign = internalErrorResponse :=
  ⟨rfl, rfl,
    (claim10_nonstring_contentType_500 testConfig
      "\x7b\"contentType\": 5\x7d" 0 "" okPresign
      [("contentType", Json.num "5")] (Json.num "5") rfl rfl
      (fun _ h => Json.noConfusion h)).1⟩

end SecureS3Upload
